import Mathlib

/-!
Verification of the SQL safety gate, text extractor, filter query builder and
row serialization of the invoices analytics backend (`app.py`).

Strings are modelled as `List Char` (via `String.data`).  Python whitespace
and lowercasing are modelled over the ASCII range, which covers the SQL text
domain of the program.
-/

/-- The ASCII whitespace characters recognised by Python's `str.strip()` and
by the regex class entered as backslash-s. -/
def pySpace (c : Char) : Bool :=
  c = ' ' || c = '\t' || c = '\n' || c = '\r' || c = '\x0b' || c = '\x0c'

/-- The ASCII uppercase-to-lowercase letter table. -/
def asciiLowerTable : List (Char × Char) :=
  [('A', 'a'), ('B', 'b'), ('C', 'c'), ('D', 'd'), ('E', 'e'), ('F', 'f'), ('G', 'g'),
   ('H', 'h'), ('I', 'i'), ('J', 'j'), ('K', 'k'), ('L', 'l'), ('M', 'm'), ('N', 'n'),
   ('O', 'o'), ('P', 'p'), ('Q', 'q'), ('R', 'r'), ('S', 's'), ('T', 't'), ('U', 'u'),
   ('V', 'v'), ('W', 'w'), ('X', 'x'), ('Y', 'y'), ('Z', 'z')]

/-- ASCII lowercasing of one character, as Python's `str.lower` acts on the
ASCII range. -/
def pyLower (c : Char) : Char :=
  match asciiLowerTable.find? (fun q => q.1 == c) with
  | some q => q.2
  | none => c

/-- Python `s.lower()`. -/
def lowerStr (l : List Char) : List Char := l.map pyLower

/-- Strip characters satisfying `p` from both ends. -/
def stripWhile (p : Char → Bool) (l : List Char) : List Char :=
  (l.dropWhile p).rdropWhile p

/-- Python `s.strip()` (ASCII whitespace). -/
def pyStrip (l : List Char) : List Char := stripWhile pySpace l

/-- Python `s.rstrip(";")`. -/
def rstripSemis (l : List Char) : List Char := l.rdropWhile (· = ';')

/-- Python substring test `needle in hay`. -/
def containsSub (needle : List Char) : List Char → Bool
  | [] => needle.isPrefixOf []
  | c :: rest => needle.isPrefixOf (c :: rest) || containsSub needle rest

/-- Number of positions at which `needle` occurs in the haystack.  For the
needle `"%s"`, whose occurrences can never overlap, this equals Python's
`str.count`. -/
def countSub (needle : List Char) : List Char → Nat
  | [] => 0
  | c :: rest => (if needle.isPrefixOf (c :: rest) then 1 else 0) + countSub needle rest

/-- The fixed deny-list of mutating/administrative SQL keywords
(`DANGEROUS_SQL_KEYWORDS` in `app.py`), each carrying its trailing space. -/
def DANGEROUS_SQL_KEYWORDS : List String :=
  ["insert ", "update ", "delete ", "drop ", "truncate ", "alter ", "create ", "grant ",
   "revoke ", "replace ", "backup ", "restore ", "copy ", "merge ", "execute "]

/-- `s.strip().lower()`: the normalised statement the validator works on. -/
def normStmt (sql : String) : List Char := lowerStr (pyStrip sql.data)

/-- The semicolon (multiple-statement) check of `is_select_only`: reject when
more than one `;` occurs, or when a single `;` is not the final character of
the stripped statement (`s.rfind(";") != len(s) - 1`); a single trailing
terminator is stripped (`s.rstrip(";").strip()`) for the remaining checks. -/
def semiProcess (s : List Char) : Option (List Char) :=
  if ';' ∈ s then
    if 1 < s.count ';' then none
    else if s.getLast? = some ';' then some (pyStrip (rstripSemis s)) else none
  else some s

/-- The deny-list and select/with checks of `is_select_only`, applied to the
semicolon-processed statement. -/
def remainingChecks (s : List Char) : Bool :=
  if DANGEROUS_SQL_KEYWORDS.any (fun bad => containsSub bad.data s) then false
  else "select".data.isPrefixOf s || "with".data.isPrefixOf s

/-- `is_select_only` from `app.py`: the SQL safety validator.  Empty input is
rejected; the statement is trimmed and lowercased; semicolons are checked;
deny-listed keywords are rejected; only `select`/`with` prefixes pass. -/
def is_select_only (sql : String) : Bool :=
  if sql.data = [] then false
  else
    match semiProcess (normStmt sql) with
    | none => false
    | some s => remainingChecks s

/-! ### The SQL text extractor (`extract_sql` in `app.py`) -/

/-- The characters stripped by the final backtick/whitespace strip of
`extract_sql`. -/
def fenceStripSet (c : Char) : Bool :=
  c = '`' || c = ' ' || c = '\n' || c = '\r' || c = '\t'

/-- Attempt the label-line pattern (line-anchored whitespace, the label
case-insensitively, whitespace, then the rest of the line) at the current
position, as one match of the `re.sub` label-removal step; returns the
remaining suffix after the match. -/
def labelMatch (lbl : List Char) (s : List Char) : Option (List Char) :=
  let t := s.dropWhile pySpace
  if lowerStr (t.take lbl.length) = lbl then
    some (((t.drop lbl.length).dropWhile pySpace).dropWhile (fun c => c != '\n'))
  else
    none

/-- Left-to-right scan of the label-removal substitution: `skip` counts
characters still inside the current match (they are dropped), `lineStart`
tracks whether the position follows a newline (the multiline line anchor). -/
def subLabelAux (lbl : List Char) : Nat → Bool → List Char → List Char
  | _, _, [] => []
  | n + 1, _, c :: cs => subLabelAux lbl n (c == '\n') cs
  | 0, lineStart, c :: cs =>
    if lineStart then
      match labelMatch lbl (c :: cs) with
      | some rest => subLabelAux lbl ((c :: cs).length - rest.length - 1) (c == '\n') cs
      | none => c :: subLabelAux lbl 0 (c == '\n') cs
    else c :: subLabelAux lbl 0 (c == '\n') cs

/-- Remove every line that is a label prefix followed by arbitrary content. -/
def subLabel (lbl : List Char) (s : List Char) : List Char := subLabelAux lbl 0 true s

/-- The literal tags removed by the HTML-cleanup substitution in
`extract_sql`. -/
def HTML_TAGS : List String :=
  ["<pre>", "</pre>", "<code>", "</code>", "<div>", "</div>", "<p>", "</p>",
   "<span>", "</span>", "<html>", "</html>", "<body>", "</body>", "<head>", "</head>"]

/-- Length of the tag matched case-insensitively at the current position. -/
def tagMatchLen (s : List Char) : Option Nat :=
  HTML_TAGS.findSome? (fun tag =>
    if lowerStr (s.take tag.data.length) = tag.data then some tag.data.length else none)

/-- Left-to-right scan removing the HTML tags, one pass of the cleanup
substitution. -/
def stripTagsAux : Nat → List Char → List Char
  | _, [] => []
  | n + 1, _ :: cs => stripTagsAux n cs
  | 0, c :: cs =>
    match tagMatchLen (c :: cs) with
    | some n => stripTagsAux (n - 1) cs
    | none => c :: stripTagsAux 0 cs

def stripTags (s : List Char) : List Char := stripTagsAux 0 s

/-- The lazily matched group: characters up to the first closing triple
backtick, or `none` when no closing fence exists. -/
def takeUntilFence : List Char → Option (List Char)
  | [] => none
  | c :: cs =>
    if "```".data.isPrefixOf (c :: cs) then some []
    else (takeUntilFence cs).map (fun g => c :: g)

/-- After the opening marker and tag: greedy whitespace, then the group. -/
def fenceInner (s : List Char) : Option (List Char) :=
  takeUntilFence (s.dropWhile pySpace)

/-- First match of the fenced-block pattern (triple backtick, mandatory
`sql`/`SQL` tag, whitespace, lazy group, closing triple backtick), scanning
positions left to right as `re.search` does; a position where the opening
marker or tag fails, or where no closing fence follows, is skipped. -/
def fenceSearch : List Char → Option (List Char)
  | [] => none
  | c :: cs =>
    if "```".data.isPrefixOf (c :: cs) then
      if "sql".data.isPrefixOf ((c :: cs).drop 3) || "SQL".data.isPrefixOf ((c :: cs).drop 3) then
        match fenceInner ((c :: cs).drop 6) with
        | some g => some g
        | none => fenceSearch cs
      else fenceSearch cs
    else fenceSearch cs

/-- The label-removal and trimming tail of `extract_sql`: remove
`question:` and `sqlquery:` label lines (each followed by `.strip()`), strip
backticks and whitespace from both ends, and strip once more. -/
def cleanupSql (s : List Char) : List Char :=
  pyStrip (stripWhile fenceStripSet (pyStrip (subLabel "sqlquery:".data
    (pyStrip (subLabel "question:".data s)))))

/-- The HTML-wrapping test of `extract_sql` (case-insensitive substring
checks on the lowercased text). -/
def hasHtmlMarker (s : List Char) : Bool :=
  containsSub "<html".data (lowerStr s) || containsSub "<div".data (lowerStr s) ||
    containsSub "<p".data (lowerStr s)

/-- `extract_sql` over the character list. -/
def extract_sql_core (text : List Char) : List Char :=
  if text = [] then []
  else
    match fenceSearch (if hasHtmlMarker text then stripTags text else text) with
    | some g => cleanupSql g
    | none => cleanupSql (if hasHtmlMarker text then stripTags text else text)

/-- `extract_sql` from `app.py`: extract a candidate SQL statement from a
raw model output. -/
def extract_sql (text : String) : String := ⟨extract_sql_core text.data⟩

/-! ### Row serialization (`to_json_serializable` and `run_select`) -/

/-- A naive-datetime value as returned by the database driver for timestamp
columns (`datetime.datetime`). -/
structure PyDatetime where
  year : Nat
  month : Nat
  day : Nat
  hour : Nat
  minute : Nat
  second : Nat
  microsecond : Nat
deriving DecidableEq

/-- A date-only value as returned by the database driver for date columns
(`datetime.date`, the superclass of `datetime.datetime`). -/
structure PyDate where
  year : Nat
  month : Nat
  day : Nat
deriving DecidableEq

/-- Zero-padded decimal rendering of a number, width `w`. -/
def padNum (w : Nat) (n : Nat) : String :=
  let s := toString n
  String.mk (List.replicate (w - s.length) '0') ++ s

/-- `datetime.isoformat()`: `YYYY-MM-DDTHH:MM:SS[.ffffff]`, with the
fractional part present only when the microsecond field is nonzero. -/
def PyDatetime.isoformat (d : PyDatetime) : String :=
  padNum 4 d.year ++ "-" ++ padNum 2 d.month ++ "-" ++ padNum 2 d.day ++ "T" ++
    padNum 2 d.hour ++ ":" ++ padNum 2 d.minute ++ ":" ++ padNum 2 d.second ++
    (if d.microsecond = 0 then "" else "." ++ padNum 6 d.microsecond)

/-- Scalar column values handed to `to_json_serializable`.  Decimal and
float payloads are modelled as rationals (floating-point rounding is outside
the scope of the serialization-shape claims). -/
inductive PyVal where
  | pyDecimal (q : ℚ)
  | pyDatetime (d : PyDatetime)
  | pyDate (d : PyDate)
  | pyInt (n : ℤ)
  | pyFloat (q : ℚ)
  | pyStr (s : String)
  | pyBool (b : Bool)
  | pyNone
deriving DecidableEq

/-- `to_json_serializable` from `app.py`.  `isinstance(value, Decimal)`
holds only for decimal values; `isinstance(value, datetime)` holds only for
`datetime.datetime` values — a `datetime.date` is the superclass, not a
subclass, so date-only values fall through to the pass-through case. -/
def to_json_serializable : PyVal → PyVal
  | .pyDecimal q => .pyFloat q
  | .pyDatetime d => .pyStr d.isoformat
  | v => v

/-- A result row: column name to value, in column order. -/
def RowV : Type := List (String × PyVal)

/-- The row conversion performed by `run_select` (and by the route handlers)
on every fetched row: apply `to_json_serializable` to each column value. -/
def convertRow (row : RowV) : RowV :=
  row.map (fun kv => (kv.1, to_json_serializable kv.2))

/-! ### The filtered listing endpoint (`/invoices`) -/

/-- A value bound to a `%s` placeholder. -/
inductive PyParam where
  | pStr (s : String)
  | pInt (n : ℤ)
deriving DecidableEq

/-- Python truthiness of an optional request argument (`request.args.get`
returns `None` when absent; the empty string is falsy). -/
def truthyStr : Option String → Bool
  | none => false
  | some s => s != ""

/-- The value of a present argument. -/
def optVal (o : Option String) : String := o.getD ""

/-- The dynamic filter query builder of the `/invoices` handler: for each
truthy filter, in the fixed source order, append one predicate to the
`WHERE` clause and its bound value to the parameter list; the `search`
filter contributes one two-placeholder predicate and two values; the limit
is always appended last. -/
def buildInvoicesQuery (vendor date_from date_to min_total max_total search : Option String)
    (limit : ℤ) : String × List PyParam :=
  let wc0 : List String := []
  let ps0 : List PyParam := []
  let (wc1, ps1) :=
    if truthyStr vendor then
      (wc0 ++ ["v.vendor_name ILIKE %s"], ps0 ++ [.pStr ("%" ++ optVal vendor ++ "%")])
    else (wc0, ps0)
  let (wc2, ps2) :=
    if truthyStr date_from then
      (wc1 ++ ["i.invoice_date >= %s"], ps1 ++ [.pStr (optVal date_from)])
    else (wc1, ps1)
  let (wc3, ps3) :=
    if truthyStr date_to then
      (wc2 ++ ["i.invoice_date <= %s"], ps2 ++ [.pStr (optVal date_to)])
    else (wc2, ps2)
  let (wc4, ps4) :=
    if truthyStr min_total then
      (wc3 ++ ["i.invoice_total >= %s"], ps3 ++ [.pStr (optVal min_total)])
    else (wc3, ps3)
  let (wc5, ps5) :=
    if truthyStr max_total then
      (wc4 ++ ["i.invoice_total <= %s"], ps4 ++ [.pStr (optVal max_total)])
    else (wc4, ps4)
  let (wc6, ps6) :=
    if truthyStr search then
      (wc5 ++ ["(i.invoice_id::text ILIKE %s OR c.customer_name ILIKE %s)"],
       ps5 ++ [.pStr ("%" ++ optVal search ++ "%"), .pStr ("%" ++ optVal search ++ "%")])
    else (wc5, ps5)
  let where_sql := if wc6.isEmpty then "" else "WHERE " ++ String.intercalate " AND " wc6
  let sql :=
    "\n            SELECT i.id, i.invoice_id, i.invoice_date, i.invoice_total, v.vendor_name, c.customer_name\n            FROM invoices i\n            LEFT JOIN vendors v ON i.vendor_id = v.id\n            LEFT JOIN customers c ON i.customer_id = c.id\n            "
      ++ where_sql
      ++ "\n            ORDER BY i.invoice_date DESC NULLS LAST\n            LIMIT %s;\n        "
  (sql, ps6 ++ [.pInt limit])

/-- Python `int(str)` on its decimal core: surrounding whitespace is
allowed, then an optional sign and a nonempty digit run.  (Underscore digit
separators, accepted by CPython, are not modelled; no claim depends on
them.) -/
def parseDigits (l : List Char) : Option Nat :=
  if l.isEmpty then none
  else if l.all Char.isDigit then some (l.foldl (fun a c => a * 10 + (c.toNat - 48)) 0)
  else none

def parsePyInt (s : String) : Option ℤ :=
  match pyStrip s.data with
  | '+' :: rest => (parseDigits rest).map Int.ofNat
  | '-' :: rest => (parseDigits rest).map (fun n => -(n : ℤ))
  | t => (parseDigits t).map Int.ofNat

/-- Response of the `/invoices` handler: HTTP status and body. -/
inductive InvBody where
  | rows (r : List RowV)
  | err (e : String)

/-- The `/invoices` handler: parse `limit` (default 100; a malformed value
raises `ValueError`, caught by the blanket handler as a 500), build the
filter query, execute it through the abstracted database call, and convert
every row; any failure is reported as HTTP 500. -/
def invoicesHandler (vendor date_from date_to min_total max_total search : Option String)
    (limitArg : Option String)
    (db : String → List PyParam → Except String (List RowV)) : Nat × InvBody :=
  match (match limitArg with | none => some (100 : ℤ) | some s => parsePyInt s) with
  | none => (500, .err "invalid literal for int() with base 10")
  | some limit =>
    match db (buildInvoicesQuery vendor date_from date_to min_total max_total search limit).1
        (buildInvoicesQuery vendor date_from date_to min_total max_total search limit).2 with
    | .error e => (500, .err e)
    | .ok rows => (200, .rows (rows.map convertRow))

/-! ### The natural-language endpoint (`/chat-with-data`) -/

/-- Response bodies produced by the `/chat-with-data` handler. -/
inductive ChatBody where
  | errBody (e : String)
  | errSqlBody (e sql : String)
  | okBody (q sql result : String)
deriving DecidableEq

/-- Result of the `/chat-with-data` handler: HTTP status, body, and the
statement passed to the query runner tool (`none` when the runner is never
invoked). -/
structure ChatResult where
  status : Nat
  body : ChatBody
  executed : Option String
deriving DecidableEq

/-- The `/chat-with-data` handler.  `useLlm` is the process-wide flag; the
generator call and the runner tool are abstracted as fallible collaborators
(an `Except.error` models a raised exception, answered with HTTP 500). -/
def chat_with_data (useLlm : Bool) (question : Option String)
    (genOutput : Except String String) (runner : String → Except String String) : ChatResult :=
  if !useLlm then ⟨400, .errBody "LLM not configured. Set GROQ_API_KEY.", none⟩
  else if !truthyStr question then ⟨400, .errBody "No question provided.", none⟩
  else
    match genOutput with
    | .error e => ⟨500, .errBody e, none⟩
    | .ok raw =>
      let sql_text := extract_sql raw
      if !is_select_only sql_text then ⟨400, .errSqlBody "Unsafe SQL." sql_text, none⟩
      else
        match runner sql_text with
        | .error e => ⟨500, .errBody e, some sql_text⟩
        | .ok result => ⟨200, .okBody (optVal question) sql_text result, some sql_text⟩

/-! ### Basic facts about the string helpers -/

theorem containsSub_infix_iff (n h : List Char) : containsSub n h = true ↔ n <:+: h := by
  induction h with
  | nil => simp [containsSub, List.isPrefixOf_iff_prefix]
  | cons c rest ih =>
    simp [containsSub, List.isPrefixOf_iff_prefix, ih, List.infix_cons_iff]

theorem containsSub_mono {h₁ h₂ : List Char} (n : List Char) (hsub : h₁ <:+: h₂)
    (h : containsSub n h₁ = true) : containsSub n h₂ = true := by
  rw [containsSub_infix_iff] at h ⊢
  exact h.trans hsub

theorem pyStrip_infix_self (l : List Char) : pyStrip l <:+: l := by
  have h1 : (l.dropWhile pySpace).rdropWhile pySpace <+: l.dropWhile pySpace :=
    List.rdropWhile_prefix _ _
  have h2 : l.dropWhile pySpace <:+ l := List.dropWhile_suffix _
  exact h1.isInfix.trans h2.isInfix

theorem semiProcessed_infix_self (l : List Char) : pyStrip (rstripSemis l) <:+: l := by
  have h1 : pyStrip (rstripSemis l) <:+: rstripSemis l := pyStrip_infix_self _
  have h2 : rstripSemis l <+: l := List.rdropWhile_prefix _ _
  exact h1.trans h2.isInfix

theorem prefix_rdropWhile (q : Char → Bool) {p l : List Char}
    (hq : ∀ c ∈ p, q c = false) (h : p <+: l) : p <+: l.rdropWhile q := by
  obtain ⟨y, rfl⟩ := h
  unfold List.rdropWhile
  rw [List.reverse_append, List.dropWhile_append]
  split
  · have hrev : p.reverse.dropWhile q = p.reverse := by
      cases hp : p.reverse with
      | nil => rfl
      | cons a tt =>
        have ha : a ∈ p := by
          have hmem : a ∈ p.reverse := hp ▸ List.mem_cons_self a tt
          simpa using hmem
        rw [List.dropWhile_cons, if_neg (by simp [hq a ha])]
    rw [hrev, List.reverse_reverse]
  · rw [List.reverse_append, List.reverse_reverse]
    exact ⟨_, rfl⟩

theorem prefix_dropWhile (q : Char → Bool) {p l : List Char} (hne : p ≠ [])
    (hq : ∀ c ∈ p, q c = false) (h : p <+: l) : p <+: l.dropWhile q := by
  cases p with
  | nil => exact (hne rfl).elim
  | cons a t =>
    obtain ⟨y, rfl⟩ := h
    rw [List.cons_append, List.dropWhile_cons, if_neg (by simp [hq a (List.mem_cons_self a t)])]
    exact ⟨y, rfl⟩

theorem prefix_keep_clean {p l : List Char} (hne : p ≠ [])
    (hws : ∀ c ∈ p, pySpace c = false) (hsemi : ∀ c ∈ p, c ≠ ';')
    (h : p <+: l) : p <+: pyStrip (rstripSemis l) := by
  have h1 : p <+: rstripSemis l :=
    prefix_rdropWhile _ (fun c hc => by simp [hsemi c hc]) h
  unfold pyStrip stripWhile
  have h2 : p <+: (rstripSemis l).dropWhile pySpace := prefix_dropWhile _ hne hws h1
  exact prefix_rdropWhile _ hws h2

theorem count_dropWhile_ne {q : Char → Bool} {x : Char} (hx : q x = false) :
    ∀ l : List Char, (l.dropWhile q).count x = l.count x := by
  intro l
  induction l with
  | nil => rfl
  | cons a t ih =>
    rw [List.dropWhile_cons]
    by_cases ha : q a = true
    · have hax : ¬ a = x := by
        intro he
        subst he
        rw [hx] at ha
        exact absurd ha (by decide)
      rw [if_pos ha, ih, List.count_cons, if_neg (by simpa using hax)]
      simp
    · rw [if_neg ha]

theorem count_rdropWhile_ne {q : Char → Bool} {x : Char} (hx : q x = false) (l : List Char) :
    (l.rdropWhile q).count x = l.count x := by
  unfold List.rdropWhile
  rw [List.count_reverse, count_dropWhile_ne hx, List.count_reverse]

theorem count_pyStrip_semi (l : List Char) : (pyStrip l).count ';' = l.count ';' := by
  unfold pyStrip stripWhile
  rw [count_rdropWhile_ne (by decide), count_dropWhile_ne (by decide)]

theorem pyLower_eq_semi (c : Char) : pyLower c = ';' ↔ c = ';' := by
  constructor
  · intro h
    unfold pyLower at h
    cases hf : asciiLowerTable.find? (fun q => q.1 == c) with
    | none => rw [hf] at h; exact h
    | some q =>
      rw [hf] at h
      have hq : q ∈ asciiLowerTable := List.mem_of_find?_eq_some hf
      have hall : ∀ r ∈ asciiLowerTable, ¬ r.2 = ';' := by decide
      exact absurd h (hall q hq)
  · intro h
    subst h
    decide

theorem count_lowerStr_semi (l : List Char) : (lowerStr l).count ';' = l.count ';' := by
  induction l with
  | nil => rfl
  | cons a t ih =>
    unfold lowerStr at ih ⊢
    rw [List.map_cons, List.count_cons, List.count_cons, ih]
    by_cases ha : a = ';'
    · subst ha; rfl
    · have h2 : ¬ pyLower a = ';' := fun hh => ha ((pyLower_eq_semi a).mp hh)
      rw [if_neg (by simpa using h2), if_neg (by simpa using ha)]

theorem count_normStmt_semi (sql : String) :
    (normStmt sql).count ';' = sql.data.count ';' := by
  unfold normStmt
  rw [count_lowerStr_semi, count_pyStrip_semi]

theorem getLast_lowerStr_semi (l : List Char) :
    (lowerStr l).getLast? = some ';' ↔ l.getLast? = some ';' := by
  unfold lowerStr
  rw [List.getLast?_map]
  cases h : l.getLast? with
  | none => simp
  | some c => simp [pyLower_eq_semi]

/-! ### Claims about the validator -/

/-- C1: For every candidate statement that, after trimming and lowercasing,
begins with `select` or `with`, contains no deny-listed keyword as a
space-terminated substring, and contains at most one `;` appearing only as a
trailing terminator, `is_select_only` returns `true`; and conversely,
`is_select_only` returns `true` only when all four checks (non-empty,
statement count, deny-list on the terminator-stripped statement, select/with
prefix) pass. -/
theorem validator_allow_characterization (sql : String) :
    ((("select".data.isPrefixOf (normStmt sql) || "with".data.isPrefixOf (normStmt sql)) = true) →
     (∀ bad ∈ DANGEROUS_SQL_KEYWORDS, containsSub bad.data (normStmt sql) = false) →
     (normStmt sql).count ';' ≤ 1 →
     ((normStmt sql).count ';' = 1 → (normStmt sql).getLast? = some ';') →
     is_select_only sql = true)
    ∧ (is_select_only sql = true →
       sql ≠ "" ∧
       ((normStmt sql).count ';' ≤ 1 ∧
         ((normStmt sql).count ';' = 1 → (normStmt sql).getLast? = some ';')) ∧
       ∃ s, semiProcess (normStmt sql) = some s ∧
         (∀ bad ∈ DANGEROUS_SQL_KEYWORDS, containsSub bad.data s = false) ∧
         ("select".data.isPrefixOf s || "with".data.isPrefixOf s) = true) := by
  constructor
  · intro hpre hdeny hc1 hc2
    have hnorm_ne : normStmt sql ≠ [] := by
      intro h0
      rw [h0] at hpre
      simp [ List.isPrefixOf_iff_prefix] at hpre
    have hd : sql.data ≠ [] := by
      intro h0
      apply hnorm_ne
      unfold normStmt
      rw [h0]
      rfl
    unfold is_select_only
    rw [if_neg hd]
    by_cases hsc : ';' ∈ normStmt sql
    · have hpos : 0 < (normStmt sql).count ';' := List.count_pos_iff.mpr hsc
      have hcnt : (normStmt sql).count ';' = 1 := by omega
      have htr := hc2 hcnt
      have hsp : semiProcess (normStmt sql) =
          some (pyStrip (rstripSemis (normStmt sql))) := by
        unfold semiProcess
        rw [if_pos hsc, if_neg (by omega), if_pos htr]
      rw [hsp]
      show remainingChecks (pyStrip (rstripSemis (normStmt sql))) = true
      unfold remainingChecks
      rw [if_neg]
      · rw [Bool.or_eq_true] at hpre ⊢
        cases hpre with
        | inl hsel =>
          left
          rw [ List.isPrefixOf_iff_prefix] at hsel ⊢
          exact prefix_keep_clean (by decide) (by decide) (by decide) hsel
        | inr hwit =>
          right
          rw [ List.isPrefixOf_iff_prefix] at hwit ⊢
          exact prefix_keep_clean (by decide) (by decide) (by decide) hwit
      · intro hany
        rw [List.any_eq_true] at hany
        obtain ⟨bad, hb, hbad⟩ := hany
        have hup := containsSub_mono bad.data (semiProcessed_infix_self (normStmt sql)) hbad
        rw [hdeny bad hb] at hup
        exact absurd hup (by decide)
    · have hsp : semiProcess (normStmt sql) = some (normStmt sql) := by
        unfold semiProcess
        rw [if_neg hsc]
      rw [hsp]
      show remainingChecks (normStmt sql) = true
      unfold remainingChecks
      rw [if_neg]
      · exact hpre
      · intro hany
        rw [List.any_eq_true] at hany
        obtain ⟨bad, hb, hbad⟩ := hany
        rw [hdeny bad hb] at hbad
        exact absurd hbad (by decide)
  · intro htrue
    by_cases hd : sql.data = []
    · rw [is_select_only, if_pos hd] at htrue
      exact absurd htrue (by decide)
    · unfold is_select_only at htrue
      rw [if_neg hd] at htrue
      split at htrue
      · exact absurd htrue (by decide)
      · rename_i s hsp
        have hsemiOK : (normStmt sql).count ';' ≤ 1 ∧
            ((normStmt sql).count ';' = 1 → (normStmt sql).getLast? = some ';') := by
          unfold semiProcess at hsp
          split at hsp
          · split at hsp
            · exact absurd hsp (by simp)
            · split at hsp
              · rename_i h1 h2
                exact ⟨by omega, fun _ => h2⟩
              · exact absurd hsp (by simp)
          · rename_i hcont
            have hza : ';' ∉ normStmt sql := hcont
            have hc0 : (normStmt sql).count ';' = 0 := List.count_eq_zero.mpr hza
            exact ⟨by omega, fun h1 => by omega⟩
        unfold remainingChecks at htrue
        split at htrue
        · exact absurd htrue (by decide)
        · rename_i hany
          have hdeny : ∀ bad ∈ DANGEROUS_SQL_KEYWORDS, containsSub bad.data s = false := by
            intro bad hb
            by_contra hx
            exact hany (List.any_eq_true.mpr ⟨bad, hb, by simpa using hx⟩)
          refine ⟨?_, hsemiOK, s, hsp, hdeny, htrue⟩
          intro he
          apply hd
          rw [he]

/-- Witness for C1 at a concrete allowed statement. -/
theorem validator_allow_characterization_witness :
    is_select_only "SELECT id FROM invoices;" = true :=
  (validator_allow_characterization "SELECT id FROM invoices;").1
    (by decide) (by decide) (by decide) (by decide)

/-- C2 counterexample: the statement `select x drop ;` contains the
deny-listed keyword `drop ` (with its trailing space) yet the validator
accepts it, because the trailing-terminator strip removes the space before
the deny-list check runs. -/
theorem keyword_anywhere_counterexample :
    containsSub "drop ".data "select x drop ;".data = true ∧
    is_select_only "select x drop ;" = true := by
  exact ⟨by decide, by decide⟩

/-- C2 (amended): if the statement, after trimming, lowercasing, and
stripping trailing semicolons and surrounding whitespace, still contains a
deny-listed keyword followed by a space, the validator rejects it. -/
theorem validator_rejects_denied_keyword (sql : String)
    (h : ∃ bad ∈ DANGEROUS_SQL_KEYWORDS,
      containsSub bad.data (pyStrip (rstripSemis (normStmt sql))) = true) :
    is_select_only sql = false := by
  obtain ⟨bad, hmem, hbad⟩ := h
  by_cases hd : sql.data = []
  · rw [is_select_only, if_pos hd]
  · unfold is_select_only
    rw [if_neg hd]
    cases hsp : semiProcess (normStmt sql) with
    | none => rfl
    | some s =>
      have hbs : containsSub bad.data s = true := by
        unfold semiProcess at hsp
        split at hsp
        · split at hsp
          · exact absurd hsp (by simp)
          · split at hsp
            · have hse : s = pyStrip (rstripSemis (normStmt sql)) := by
                injection hsp with hh
                exact hh.symm
              rw [hse]
              exact hbad
            · exact absurd hsp (by simp)
        · have hse : s = normStmt sql := by
            injection hsp with hh
            exact hh.symm
          rw [hse]
          exact containsSub_mono bad.data (semiProcessed_infix_self (normStmt sql)) hbad
      show remainingChecks s = false
      unfold remainingChecks
      rw [if_pos (List.any_eq_true.mpr ⟨bad, hmem, hbs⟩)]

/-- Witness for the amended C2 at a concrete denied statement. -/
theorem validator_rejects_denied_keyword_witness :
    is_select_only "drop table invoices" = false :=
  validator_rejects_denied_keyword "drop table invoices" ⟨"drop ", by decide, by decide⟩

/-- C3: two or more `;` always reject; exactly one `;` rejects unless it is
the last non-whitespace character; a single trailing terminator is stripped
before the deny-list and prefix checks are applied. -/
theorem validator_semicolon_rules (sql : String) :
    (2 ≤ sql.data.count ';' → is_select_only sql = false) ∧
    (sql.data.count ';' = 1 → (pyStrip sql.data).getLast? ≠ some ';' →
      is_select_only sql = false) ∧
    (sql.data.count ';' = 1 → (pyStrip sql.data).getLast? = some ';' →
      is_select_only sql = remainingChecks (pyStrip (rstripSemis (normStmt sql)))) := by
  refine ⟨?_, ?_, ?_⟩
  · intro h2
    by_cases hd : sql.data = []
    · rw [is_select_only, if_pos hd]
    · have hcnt : 2 ≤ (normStmt sql).count ';' := by
        rw [count_normStmt_semi]
        exact h2
      have hmem : ';' ∈ normStmt sql := List.count_pos_iff.mp (by omega)
      unfold is_select_only
      rw [if_neg hd]
      have hsp : semiProcess (normStmt sql) = none := by
        unfold semiProcess
        rw [if_pos hmem, if_pos (by omega)]
      rw [hsp]
  · intro h1 hlast
    by_cases hd : sql.data = []
    · rw [is_select_only, if_pos hd]
    · have hcnt : (normStmt sql).count ';' = 1 := by
        rw [count_normStmt_semi]
        exact h1
      have hmem : ';' ∈ normStmt sql := List.count_pos_iff.mp (by omega)
      have hlast2 : ¬ (normStmt sql).getLast? = some ';' := by
        intro hg
        exact hlast ((getLast_lowerStr_semi (pyStrip sql.data)).mp hg)
      unfold is_select_only
      rw [if_neg hd]
      have hsp : semiProcess (normStmt sql) = none := by
        unfold semiProcess
        rw [if_pos hmem, if_neg (by omega), if_neg hlast2]
      rw [hsp]
  · intro h1 hlast
    have hd : sql.data ≠ [] := by
      intro h0
      rw [h0] at h1
      exact absurd h1 (by decide)
    have hcnt : (normStmt sql).count ';' = 1 := by
      rw [count_normStmt_semi]
      exact h1
    have hmem : ';' ∈ normStmt sql := List.count_pos_iff.mp (by omega)
    have hlast2 : (normStmt sql).getLast? = some ';' :=
      (getLast_lowerStr_semi (pyStrip sql.data)).mpr hlast
    unfold is_select_only
    rw [if_neg hd]
    have hsp : semiProcess (normStmt sql) =
        some (pyStrip (rstripSemis (normStmt sql))) := by
      unfold semiProcess
      rw [if_pos hmem, if_neg (by omega), if_pos hlast2]
    rw [hsp]

/-- Witness for C3 at a concrete multi-statement input. -/
theorem validator_semicolon_rules_witness :
    is_select_only "select 1; select 2;" = false :=
  (validator_semicolon_rules "select 1; select 2;").1 (by decide)

/-! ### Claims about the extractor -/

theorem takeUntilFence_append (a b : List Char) (ha : ∀ c ∈ a, c ≠ '`') :
    takeUntilFence (a ++ ("```".data ++ b)) = some a := by
  induction a with
  | nil =>
    show takeUntilFence ('`' :: '`' :: '`' :: b) = some []
    unfold takeUntilFence
    rw [if_pos]
    rw [ List.isPrefixOf_iff_prefix]
    exact ⟨b, rfl⟩
  | cons c a' ih =>
    have hc : c ≠ '`' := ha c (List.mem_cons_self c a')
    show takeUntilFence (c :: (a' ++ ("```".data ++ b))) = some (c :: a')
    unfold takeUntilFence
    rw [if_neg, ih (fun x hx => ha x (List.mem_cons_of_mem c hx))]
    · rfl
    · intro hp
      rw [ List.isPrefixOf_iff_prefix] at hp
      obtain ⟨r, hr⟩ := hp
      rw [show "```".data ++ r = '`' :: '`' :: '`' :: r from rfl] at hr
      apply hc
      injection hr with h1 _
      exact h1.symm

theorem dropWhile_append_cons {p : Char → Bool} {x : Char} (hx : p x = false)
    (a y : List Char) : (a ++ x :: y).dropWhile p = a.dropWhile p ++ x :: y := by
  rw [List.dropWhile_append]
  split
  · rename_i he
    rw [List.isEmpty_iff] at he
    rw [he, List.nil_append, List.dropWhile_cons, if_neg (by simp [hx])]
  · rfl

theorem fenceSearch_found (pre tag inner post : List Char)
    (htag : tag = "sql".data ∨ tag = "SQL".data)
    (hpre : ∀ c ∈ pre, c ≠ '`') (hinner : ∀ c ∈ inner, c ≠ '`') :
    fenceSearch (pre ++ "```".data ++ tag ++ inner ++ "```".data ++ post) =
      some (inner.dropWhile pySpace) := by
  induction pre with
  | nil =>
    show fenceSearch ('`' :: '`' :: '`' :: (tag ++ inner ++ "```".data ++ post)) =
      some (inner.dropWhile pySpace)
    unfold fenceSearch
    rw [if_pos, if_pos]
    · have hdrop : ('`' :: '`' :: '`' :: (tag ++ inner ++ "```".data ++ post)).drop 6 =
          inner ++ "```".data ++ post := by
        cases htag with
        | inl h => subst h; rfl
        | inr h => subst h; rfl
      rw [hdrop]
      have hfi : fenceInner (inner ++ "```".data ++ post) = some (inner.dropWhile pySpace) := by
        unfold fenceInner
        rw [List.append_assoc]
        show takeUntilFence ((inner ++ '`' :: '`' :: '`' :: post).dropWhile pySpace) = _
        rw [dropWhile_append_cons (by decide) inner ('`' :: '`' :: post)]
        exact takeUntilFence_append (inner.dropWhile pySpace) post
          (fun c hc => hinner c ((List.dropWhile_suffix pySpace).sublist.subset hc))
      rw [hfi]
    · rw [Bool.or_eq_true]
      cases htag with
      | inl h =>
        left
        subst h
        rw [ List.isPrefixOf_iff_prefix]
        exact ⟨inner ++ "```".data ++ post, rfl⟩
      | inr h =>
        right
        subst h
        rw [ List.isPrefixOf_iff_prefix]
        exact ⟨inner ++ "```".data ++ post, rfl⟩
    · rw [ List.isPrefixOf_iff_prefix]
      exact ⟨tag ++ inner ++ "```".data ++ post, rfl⟩
  | cons c pre' ih =>
    have hc : c ≠ '`' := hpre c (List.mem_cons_self c pre')
    show fenceSearch (c :: (pre' ++ "```".data ++ tag ++ inner ++ "```".data ++ post)) =
      some (inner.dropWhile pySpace)
    unfold fenceSearch
    rw [if_neg]
    · exact ih (fun x hx => hpre x (List.mem_cons_of_mem c hx))
    · intro hp
      rw [ List.isPrefixOf_iff_prefix] at hp
      obtain ⟨r, hr⟩ := hp
      rw [show "```".data ++ r = '`' :: '`' :: '`' :: r from rfl] at hr
      apply hc
      injection hr with h1 _
      exact h1.symm

/-- C4 counterexample: a fenced block whose marker is not followed by the
`sql` tag is not found (the tag is mandatory in the fence pattern), so the
whole text — fence markers included — is returned, not the block's inner
content. -/
theorem extract_untagged_fence_counterexample :
    extract_sql "a ``` select 1 ``` b" = "a ``` select 1 ``` b" ∧
    "a ``` select 1 ``` b" ≠ "select 1" := ⟨by decide, by decide⟩

/-- C4 (amended): for raw text whose first fenced block carries the
mandatory `sql`/`SQL` tag (here isolated by backtick-free surroundings and
with no HTML markers), `extract_sql` returns exactly the block's inner
content pushed through the label-stripping and trimming cleanup; for raw
text in which the fence pattern finds no match, it returns the
label-stripped, trimmed whole (cleaned) text. -/
theorem extract_fenced_characterization :
    (∀ pre tag inner post : List Char,
      tag = "sql".data ∨ tag = "SQL".data →
      (∀ c ∈ pre, c ≠ '`') →
      (∀ c ∈ inner, c ≠ '`') →
      hasHtmlMarker (pre ++ "```".data ++ tag ++ inner ++ "```".data ++ post) = false →
      extract_sql ⟨pre ++ "```".data ++ tag ++ inner ++ "```".data ++ post⟩ =
        ⟨cleanupSql (inner.dropWhile pySpace)⟩)
    ∧ (∀ text : String, hasHtmlMarker text.data = false → fenceSearch text.data = none →
        extract_sql text = ⟨cleanupSql text.data⟩) := by
  constructor
  · intro pre tag inner post htag hpre hinner hhtml
    have hne : pre ++ "```".data ++ tag ++ inner ++ "```".data ++ post ≠ [] := by
      intro h0
      obtain ⟨h1, _⟩ := List.append_eq_nil.mp h0
      obtain ⟨_, h3⟩ := List.append_eq_nil.mp h1
      exact absurd h3 (by decide)
    have hcore : extract_sql_core (pre ++ "```".data ++ tag ++ inner ++ "```".data ++ post) =
        cleanupSql (inner.dropWhile pySpace) := by
      unfold extract_sql_core
      rw [if_neg hne, if_neg (by rw [hhtml]; decide),
        fenceSearch_found pre tag inner post htag hpre hinner]
    exact congrArg String.mk hcore
  · intro text hhtml hfs
    have hcore : extract_sql_core text.data = cleanupSql text.data := by
      by_cases hd : text.data = []
      · rw [hd]
        rfl
      · unfold extract_sql_core
        rw [if_neg hd, if_neg (by rw [hhtml]; decide), hfs]
    exact congrArg String.mk hcore

/-- Witness for the amended C4 at the spec's own scenario. -/
theorem extract_fenced_characterization_witness :
    extract_sql "Sure!\n```sql\nSELECT id FROM invoices;\n```" = "SELECT id FROM invoices;" := by
  have h := extract_fenced_characterization.1 "Sure!\n".data "sql".data
    "\nSELECT id FROM invoices;\n".data [] (Or.inl rfl) (by decide) (by decide) (by decide)
  exact h.trans (by decide)

example : is_select_only "SELECT * FROM invoices;" = true := by decide
example : is_select_only "select * from invoices; drop table invoices;" = false := by decide
example : is_select_only "update invoices set invoice_total = 0" = false := by decide
example : is_select_only "  with t as (select 1) select * from t" = true := by decide
example : is_select_only "" = false := by decide
example : is_select_only "select x drop ;" = true := by decide

/-! ### Claims about the filter builder -/

set_option maxRecDepth 8000 in
/-- C5: for every subset of the six optional filters, the number of `%s`
placeholders in the built template equals the number of bound arguments (the
search filter contributing two of each, the limit contributing the final
argument); and with all six filters absent the template contains no `WHERE`
clause. -/
theorem invoices_placeholder_balance
    (vendor date_from date_to min_total max_total search : Option String) (limit : ℤ) :
    countSub "%s".data
        (buildInvoicesQuery vendor date_from date_to min_total max_total search limit).1.data =
      (buildInvoicesQuery vendor date_from date_to min_total max_total search limit).2.length
    ∧ (vendor = none → date_from = none → date_to = none → min_total = none →
       max_total = none → search = none →
       containsSub "WHERE".data
         (buildInvoicesQuery vendor date_from date_to min_total max_total search limit).1.data
         = false) := by
  constructor
  · cases hv : truthyStr vendor <;> cases h2 : truthyStr date_from <;>
      cases h3 : truthyStr date_to <;> cases h4 : truthyStr min_total <;>
      cases h5 : truthyStr max_total <;> cases h6 : truthyStr search <;>
      all_goals
        (simp only [buildInvoicesQuery, hv, h2, h3, h4, h5, h6]
         simp only [if_true, if_false, Bool.false_eq_true, ite_false, ite_true]
         simp only [List.length_append, List.length_cons, List.length_nil, List.nil_append]
         decide)
  · intro e1 e2 e3 e4 e5 e6
    subst e1; subst e2; subst e3; subst e4; subst e5; subst e6
    rw [show (buildInvoicesQuery none none none none none none limit).1 =
      (buildInvoicesQuery none none none none none none 0).1 from rfl]
    decide

/-- Witness for C5 at the all-absent filter set. -/
theorem invoices_placeholder_balance_witness :
    countSub "%s".data (buildInvoicesQuery none none none none none none 100).1.data =
      (buildInvoicesQuery none none none none none none 100).2.length ∧
    containsSub "WHERE".data
      (buildInvoicesQuery none none none none none none 100).1.data = false :=
  ⟨(invoices_placeholder_balance none none none none none none 100).1,
   (invoices_placeholder_balance none none none none none none 100).2 rfl rfl rfl rfl rfl rfl⟩

/-- C10: an optional filter supplied as the empty string behaves exactly
like an absent filter, for each of the six filter slots (each presence check
is a truthiness test). -/
theorem empty_filter_equals_absent
    (a b c d e f : Option String) (limit : ℤ) :
    buildInvoicesQuery (some "") b c d e f limit = buildInvoicesQuery none b c d e f limit ∧
    buildInvoicesQuery a (some "") c d e f limit = buildInvoicesQuery a none c d e f limit ∧
    buildInvoicesQuery a b (some "") d e f limit = buildInvoicesQuery a b none d e f limit ∧
    buildInvoicesQuery a b c (some "") e f limit = buildInvoicesQuery a b c none e f limit ∧
    buildInvoicesQuery a b c d (some "") f limit = buildInvoicesQuery a b c d none f limit ∧
    buildInvoicesQuery a b c d e (some "") limit = buildInvoicesQuery a b c d e none limit :=
  ⟨rfl, rfl, rfl, rfl, rfl, rfl⟩

/-! ### Claims about the request handlers -/

/-- C6: when the extracted candidate is rejected by the validator, the
natural-language handler answers HTTP 400 with the error string and the
extracted statement, and the runner tool is never invoked. -/
theorem chat_rejects_invalid (question : Option String) (raw : String)
    (runner : String → Except String String)
    (hq : truthyStr question = true)
    (hbad : is_select_only (extract_sql raw) = false) :
    chat_with_data true question (.ok raw) runner =
      ⟨400, .errSqlBody "Unsafe SQL." (extract_sql raw), none⟩ := by
  simp [chat_with_data, hq, hbad]

/-- Witness for C6 at a concrete rejected generation. -/
theorem chat_rejects_invalid_witness :
    chat_with_data true (some "wipe the table") (.ok "DROP TABLE invoices")
        (fun _ => .ok "[]") =
      ⟨400, .errSqlBody "Unsafe SQL." "DROP TABLE invoices", none⟩ :=
  (chat_rejects_invalid (some "wipe the table") "DROP TABLE invoices" (fun _ => .ok "[]")
    (by decide) (by decide)).trans (by decide)

/-- C8 counterexample: with the language-model path configured and no
question supplied, the body's error string is `No question provided.` —
with a trailing period — not the exact string `No question provided`
claimed. -/
theorem missing_question_message_counterexample :
    chat_with_data true none (.ok "SELECT 1") (fun _ => .ok "[]") =
      ⟨400, .errBody "No question provided.", none⟩ ∧
    "No question provided." ≠ "No question provided" := ⟨by decide, by decide⟩

/-- C8 (amended): with the language-model path configured and no question
supplied, the handler answers HTTP 400 with the error string
`No question provided.` (trailing period), independent of the generator and
runner, which are never consulted. -/
theorem chat_missing_question (gen : Except String String)
    (runner : String → Except String String) :
    chat_with_data true none gen runner = ⟨400, .errBody "No question provided.", none⟩ := rfl

/-- C7 counterexample: a non-integer `limit` on the filtered listing
endpoint is answered with HTTP 500 (the `ValueError` is caught by the
blanket handler), not the claimed 400. -/
theorem limit_error_counterexample :
    (invoicesHandler none none none none none none (some "abc") (fun _ _ => .ok [])).1 = 500 ∧
    ¬ (invoicesHandler none none none none none none (some "abc") (fun _ _ => .ok [])).1 = 400 :=
  ⟨rfl, by decide⟩

/-- C7 (amended): the filtered listing endpoint answers only 200 or 500,
mapping malformed caller input (such as a non-integer limit) to 500; the
natural-language endpoint answers 400 exactly for caller-input errors (LLM
unconfigured, missing question) and safety-gate rejections, and 500 exactly
for generation or execution failures. -/
theorem status_taxonomy :
    (∀ (v df dt mn mx s : Option String) (la : Option String)
        (db : String → List PyParam → Except String (List RowV)),
      (invoicesHandler v df dt mn mx s la db).1 = 200 ∨
        (invoicesHandler v df dt mn mx s la db).1 = 500)
    ∧ (∀ (v df dt mn mx s : Option String) (la : String)
        (db : String → List PyParam → Except String (List RowV)),
      parsePyInt la = none → (invoicesHandler v df dt mn mx s (some la) db).1 = 500)
    ∧ (∀ (useLlm : Bool) (q : Option String) (gen : Except String String)
        (runner : String → Except String String),
      ((chat_with_data useLlm q gen runner).status = 400 ↔
        (useLlm = false ∨ truthyStr q = false ∨
          ∃ raw, gen = Except.ok raw ∧ is_select_only (extract_sql raw) = false))
      ∧ ((chat_with_data useLlm q gen runner).status = 500 ↔
        (useLlm = true ∧ truthyStr q = true ∧
          ((∃ e, gen = Except.error e) ∨
            ∃ raw, gen = Except.ok raw ∧ is_select_only (extract_sql raw) = true ∧
              ∃ e, runner (extract_sql raw) = Except.error e)))) := by
  refine ⟨?_, ?_, ?_⟩
  · intro v df dt mn mx s la db
    unfold invoicesHandler
    split
    · right
      rfl
    · split
      · right
        rfl
      · left
        rfl
  · intro v df dt mn mx s la db hpn
    unfold invoicesHandler
    rw [show (match some la with | none => some (100 : ℤ) | some t => parsePyInt t) =
      parsePyInt la from rfl, hpn]
  · intro u q gen runner
    cases u with
    | false =>
      constructor
      · constructor
        · intro _
          exact Or.inl rfl
        · intro _
          rfl
      · constructor
        · intro h
          have h400 : (chat_with_data false q gen runner).status = 400 := rfl
          rw [h400] at h
          exact absurd h (by decide)
        · intro h
          exact absurd h.1 (by decide)
    | true =>
      cases hq : truthyStr q with
      | false => simp [chat_with_data, hq]
      | true =>
        cases gen with
        | error e => simp [chat_with_data, hq]
        | ok raw =>
          cases hsafe : is_select_only (extract_sql raw) with
          | false => simp [chat_with_data, hq, hsafe]
          | true =>
            cases hrun : runner (extract_sql raw) with
            | error e => simp [chat_with_data, hq, hsafe, hrun]
            | ok res => simp [chat_with_data, hq, hsafe, hrun]

/-- Witness for the amended C7 at a concrete malformed limit. -/
theorem status_taxonomy_witness :
    parsePyInt "abc" = none ∧
    (invoicesHandler none none none none none none (some "abc") (fun _ _ => .ok [])).1 = 500 :=
  ⟨by decide,
   status_taxonomy.2.1 none none none none none none "abc" (fun _ _ => .ok []) (by decide)⟩

/-! ### Claims about row serialization -/

/-- C9 counterexample: a date-only column value is not converted to an
ISO-8601 string — the `isinstance(value, datetime)` test is false for
`datetime.date` — so it passes through unchanged, contradicting the claim
that every temporal value is converted. -/
theorem date_passthrough_counterexample :
    to_json_serializable (.pyDate ⟨2024, 1, 15⟩) = .pyDate ⟨2024, 1, 15⟩ ∧
    (PyVal.pyDate ⟨2024, 1, 15⟩) ≠ .pyStr "2024-01-15" := ⟨rfl, by decide⟩

/-- C9 (amended): decimal values become floats, `datetime.datetime` values
become their ISO-8601 string, and every other scalar — including date-only
values — passes through unchanged. -/
theorem serialization_shape :
    (∀ q : ℚ, to_json_serializable (.pyDecimal q) = .pyFloat q) ∧
    (∀ d : PyDatetime, to_json_serializable (.pyDatetime d) = .pyStr d.isoformat) ∧
    (∀ d : PyDate, to_json_serializable (.pyDate d) = .pyDate d) ∧
    (∀ n : ℤ, to_json_serializable (.pyInt n) = .pyInt n) ∧
    (∀ q : ℚ, to_json_serializable (.pyFloat q) = .pyFloat q) ∧
    (∀ s : String, to_json_serializable (.pyStr s) = .pyStr s) ∧
    (∀ b : Bool, to_json_serializable (.pyBool b) = .pyBool b) ∧
    to_json_serializable .pyNone = .pyNone :=
  ⟨fun _ => rfl, fun _ => rfl, fun _ => rfl, fun _ => rfl, fun _ => rfl,
   fun _ => rfl, fun _ => rfl, rfl⟩

example : PyDatetime.isoformat ⟨2024, 3, 7, 9, 5, 30, 0⟩ = "2024-03-07T09:05:30" := by decide
example : convertRow [("d", .pyDecimal (5 : ℚ))] = [("d", .pyFloat (5 : ℚ))] := rfl
